import Mathlib

/-!
Verification development for the resumable Skool classroom harvest engine
(`main.js`, class `SkoolScraper` and its `Actor.main` entry point).

The JavaScript source is shallowly embedded as pure Lean functions:

* `Step`, `CurrentStateModel`  — the `currentState` object of the scraper;
* `SavedState`                 — the value written to the key/value store
                                 by `saveState` (state plus `scrapedData`
                                 and `timestamp`);
* `saveState` / `loadState`    — the checkpoint store operations, with the
                                 key/value collaborator modelled as a value
                                 that may be an error (the `try`/`catch`
                                 blocks become a `match` on that value);
* `Page` / `extractTextContent`— the per-page content extractor; the DOM is
                                 abstracted to a `query` function returning
                                 the cleaned, trimmed `innerText` of the
                                 first element matching a selector, and an
                                 `evalThrows` flag modelling a throw inside
                                 `page.evaluate`;
* `generateModuleUrl`          — locator derivation from the base classroom
                                 URL and a module id (JS truthiness of the
                                 two operands becomes emptiness/`none`
                                 checks);
* `collectModules` / `runNodes` / `scrapeDirectWithIds`
                               — the harvesting loop over the flattened
                                 module list, with the per-node navigation
                                 outcome supplied by an oracle
                                 `env : Nat -> NavResult` and the migration
                                 flag observations by `migrateAt`;
* `actorMain`                  — the `Actor.main` control flow (input
                                 validation, init/login/navigate phases,
                                 the scrape, output flattening and pushes,
                                 the migration catch, the `finally` close).

Machine-visible traces (`attempted`, `navigated`, `contentWrites`,
`periodicSaves`, `migrationSavedCursor`, `pushed`) record the effects the
claims talk about.
-/

/-- Step is the `currentState.step` string of the scraper; the five values
that occur in the source are the string literals `"initializing"`,
`"initialized"`, `"logged_in"`, `"scraping"` and `"completed"`. -/
inductive Step
  | initializing
  | initialized
  | logged_in
  | scraping
  | completed
deriving DecidableEq, Repr

/-- CurrentStateModel is the `this.currentState` object (its `scrapedData`
array, the mutable `this.data`, is threaded separately, as in the source
where `this.data` is a distinct field merged in only at save time). -/
structure CurrentStateModel where
  step : Step
  processedModules : Nat
  totalModules : Nat
  currentModule : Option String
deriving DecidableEq, Repr

/-- initialState is the state built by the `SkoolScraper` constructor. -/
def initialState : CurrentStateModel :=
  ⟨Step.initializing, 0, 0, none⟩

/-- SavedState is the value stored under the key `SCRAPER_STATE`:
the spread of `currentState` plus `scrapedData` and `timestamp`. -/
structure SavedState where
  step : Step
  processedModules : Nat
  totalModules : Nat
  currentModule : Option String
  scrapedData : List String
  timestamp : Int
deriving DecidableEq, Repr

/-- mkSaved builds the object that `saveState` passes to
`Actor.setValue`. -/
def mkSaved (st : CurrentStateModel) (data : List String) (now : Int) :
    SavedState :=
  ⟨st.step, st.processedModules, st.totalModules, st.currentModule, data, now⟩

/-- actorSetValue models the `Actor.setValue` collaborator: it either
replaces the stored snapshot or fails (throws). -/
def actorSetValue (setFails : Bool) (store : Option SavedState)
    (v : SavedState) : Except String (Option SavedState) :=
  if setFails then Except.error "kv store failure" else Except.ok (some v)

/-- saveState models `SkoolScraper.saveState`: it writes the current state
(with `scrapedData` and a timestamp) to the store; a store failure is
caught, only logged, and the call returns normally with the store and the
in-memory state unchanged. The result is the pair (store after the call,
in-memory state after the call). -/
def saveState (setFails : Bool) (store : Option SavedState)
    (st : CurrentStateModel) (data : List String) (now : Int) :
    Option SavedState × CurrentStateModel :=
  match actorSetValue setFails store (mkSaved st data now) with
  | Except.ok s => (s, st)
  | Except.error _ => (store, st)

/-- actorGetValue models the `Actor.getValue` collaborator: it either
yields the stored snapshot (or nothing) or fails (throws). -/
def actorGetValue (getFails : Bool) (store : Option SavedState) :
    Except String (Option SavedState) :=
  if getFails then Except.error "kv store failure" else Except.ok store

/-- loadState models `SkoolScraper.loadState`: read the snapshot; restore
it into `currentState` and `this.data` only when it exists, has a truthy
`timestamp`, and that timestamp is strictly newer than one hour
(3600000 ms) before `now`; return whether a restore happened. A read
failure is caught and the call returns `false` with everything unchanged.
The result is (returned boolean, currentState after, data after). -/
def loadState (getFails : Bool) (store : Option SavedState) (now : Int)
    (st : CurrentStateModel) (data : List String) :
    Bool × CurrentStateModel × List String :=
  match actorGetValue getFails store with
  | Except.error _ => (false, st, data)
  | Except.ok none => (false, st, data)
  | Except.ok (some s) =>
    if s.timestamp ≠ 0 then
      if s.timestamp > now - 3600000 then
        (true,
         ⟨s.step, s.processedModules, s.totalModules, s.currentModule⟩,
         s.scrapedData)
      else (false, st, data)
    else (false, st, data)

/-- Page abstracts one loaded module page as seen by the two
`page.evaluate` calls of `extractTextContent`: `query sel` is the cleaned
(script/style/svg removed), trimmed `innerText` of the first element
matching `sel`, or `none` when no element matches; `evalThrows` models a
throw inside `page.evaluate`. -/
structure Page where
  query : String → Option String
  evalThrows : Bool

/-- primarySelector is the rich-text editor container probed first. -/
def primarySelector : String := ".tiptap.ProseMirror.skool-editor2"

/-- contentSelectors is the fallback selector list, in priority order. -/
def contentSelectors : List String :=
  [".styled__EditorContentWrapper-sc-1cnx5by-2",
   ".styled__RichTextEditorWrapper-sc-1cnx5by-0",
   ".styled__ModuleBody-sc-cgnv0g-3",
   "[data-testid*=\"content\"]",
   ".content",
   "main",
   ".main-content"]

/-- fallbackOver walks a selector list in order and returns the first
cleaned text that is truthy and longer than 10 characters, as the second
`page.evaluate` of `extractTextContent` does. -/
def fallbackOver (p : Page) : List String → Option String
  | [] => none
  | sel :: rest =>
    match p.query sel with
    | some t => if t ≠ "" ∧ t.length > 10 then some t else fallbackOver p rest
    | none => fallbackOver p rest

/-- fallbackResult is the result of the fallback `page.evaluate` over the
fixed selector list. -/
def fallbackResult (p : Page) : Option String :=
  fallbackOver p contentSelectors

/-- extractTextContent models `SkoolScraper.extractTextContent`: probe the
primary editor container; when its (possibly empty) text is falsy, probe
the fallback selectors; finish with `extractedContent || "No content
found"`; any throw inside is caught and yields the string
`"Error extracting content"`. -/
def extractTextContent (p : Page) : String :=
  if p.evalThrows then "Error extracting content"
  else
    let ec : Option String :=
      match p.query primarySelector with
      | some t => if t = "" then fallbackResult p else some t
      | none => fallbackResult p
    match ec with
    | some t => if t = "" then "No content found" else t
    | none => "No content found"

/-- generateModuleUrl models `SkoolScraper.generateModuleUrl`: `null` when
the base classroom URL or the module id is falsy, else the base URL up to
the first `?` with `?md=<id>` appended. -/
def generateModuleUrl (baseClassroomUrl : Option String)
    (moduleId : Option String) : Option String :=
  match baseClassroomUrl, moduleId with
  | some base, some id =>
    if base = "" ∨ id = "" then none
    else some (((base.splitOn "?").headD base) ++ "?md=" ++ id)
  | _, _ => none

/-- CModule is one module object of the extracted course structure:
`{title, videoLink, Id, content}` (content starts `null`; named CModule
because Mathlib already declares Module). -/
structure CModule where
  title : String
  videoLink : Option String
  Id : Option String
  content : Option String
deriving DecidableEq, Repr

/-- CSection is one section object of the course structure:
`{courseTitle, childrenCourses}`. -/
structure CSection where
  courseTitle : String
  childrenCourses : List CModule
deriving DecidableEq, Repr

/-- CourseStructure is the `{sections}` value returned by
`extractCourseStructure` and mutated during the harvest. -/
structure CourseStructure where
  sections : List CSection
deriving DecidableEq, Repr

/-- FlatModule is one element of `allModules`: a module with a truthy id
plus its section/module indices and the section title. -/
structure FlatModule where
  title : String
  videoLink : Option String
  Id : String
  sectionIndex : Nat
  moduleIndex : Nat
  sectionTitle : String
deriving DecidableEq, Repr

/-- collectSection flattens the modules of one section, keeping only
modules whose `Id` is truthy (present and non-empty), as the
`if (module.Id)` filter does. -/
def collectSection (sectionIndex : Nat) (sectionTitle : String) :
    Nat → List CModule → List FlatModule
  | _, [] => []
  | mi, m :: rest =>
    match m.Id with
    | some id =>
      if id = "" then collectSection sectionIndex sectionTitle (mi + 1) rest
      else
        ⟨m.title, m.videoLink, id, sectionIndex, mi, sectionTitle⟩ ::
          collectSection sectionIndex sectionTitle (mi + 1) rest
    | none => collectSection sectionIndex sectionTitle (mi + 1) rest

/-- collectFrom flattens the sections starting at a given section index. -/
def collectFrom : Nat → List CSection → List FlatModule
  | _, [] => []
  | si, s :: rest =>
    collectSection si s.courseTitle 0 s.childrenCourses ++
      collectFrom (si + 1) rest

/-- collectModules is the `allModules` array built at the start of
`scrapeDirectWithIds`. -/
def collectModules (cs : CourseStructure) : List FlatModule :=
  collectFrom 0 cs.sections

/-- modifyIdx applies a function to the element at one position of a list,
leaving shorter lists unchanged. -/
def modifyIdx : List α → Nat → (α → α) → List α
  | [], _, _ => []
  | a :: as, 0, f => f a :: as
  | a :: as, n + 1, f => a :: modifyIdx as n f

/-- setContent models the assignment
`courseStructure.sections[si].childrenCourses[mi].content = c`. -/
def setContent (cs : CourseStructure) (si mi : Nat) (c : String) :
    CourseStructure :=
  ⟨modifyIdx cs.sections si (fun sec =>
    ⟨sec.courseTitle, modifyIdx sec.childrenCourses mi (fun m =>
      ⟨m.title, m.videoLink, m.Id, some c⟩)⟩)⟩

/-- NavResult is the outcome of one `page.goto` to a module URL: either
the page becomes queryable, or the navigation throws with a message. -/
inductive NavResult
  | ok (page : Page)
  | err (msg : String)

/-- RunExit says how the harvesting loop ended: it ran past the last
module, or it threw `"Migration in progress"`. -/
inductive RunExit
  | finished
  | migrated
deriving DecidableEq, Repr

/-- LoopState carries the mutable scraper state through the harvesting
loop, together with observable traces: `attempted` records the loop
indices whose body ran past the migration check, `navigated` those where
`page.goto` was invoked, `contentWrites` the `(index, string)` content
assignments in order, `periodicSaves` the `processedModules` values at
each every-3-modules save, and `migrationSavedCursor` the cursor persisted
by the in-loop migration save, when one happened. -/
structure LoopState where
  cs : CourseStructure
  state : CurrentStateModel
  store : Option SavedState
  browserOpen : Bool
  dataList : List String
  attempted : List Nat
  navigated : List Nat
  contentWrites : List (Nat × String)
  periodicSaves : List Nat
  migrationSavedCursor : Option Nat

/-- prepareMigration models `SkoolScraper.prepareMigration`: save the
current state, then close the browser. The result is the store after the
save (the browser is closed by the caller setting `browserOpen` to
`false`). -/
def prepareMigration (setFails : Bool) (store : Option SavedState)
    (st : CurrentStateModel) (data : List String) (now : Int) :
    Option SavedState :=
  (saveState setFails store st data now).1

/-- runNodes is the `for (let i = processedModules; i < allModules.length;
i++)` loop of `scrapeDirectWithIds`, processing the remaining flattened
modules with `i` the loop index. Before each node the migration flag is
checked; on migration the cursor is persisted at the current index and the
browser closed. Otherwise the module URL is generated (a falsy URL means
`continue`), navigation and extraction run, the content is written into
the structure, the cursor advances to `i + 1` and every third processed
module the state is saved. A navigation error is caught: the error string
is written as that node content and the loop moves on without advancing
the cursor. -/
def runNodes (base : Option String) (env : Nat → NavResult)
    (migrateAt : Nat → Bool) (now : Int) (setFails : Bool) :
    Nat → List FlatModule → LoopState → LoopState × RunExit
  | _, [], ls => (ls, RunExit.finished)
  | i, m :: rest, ls =>
    if migrateAt i then
      let st : CurrentStateModel :=
        ⟨ls.state.step, i, ls.state.totalModules, ls.state.currentModule⟩
      let store := prepareMigration setFails ls.store st ls.dataList now
      ({ ls with state := st, store := store, browserOpen := false,
                 migrationSavedCursor := some i }, RunExit.migrated)
    else
      let st : CurrentStateModel :=
        ⟨ls.state.step, ls.state.processedModules, ls.state.totalModules,
         some m.title⟩
      let ls1 := { ls with state := st, attempted := ls.attempted ++ [i] }
      match generateModuleUrl base (some m.Id) with
      | none => runNodes base env migrateAt now setFails (i + 1) rest ls1
      | some _ =>
        let ls2 := { ls1 with navigated := ls1.navigated ++ [i] }
        match env i with
        | NavResult.err msg =>
          let c := "Error scraping content: " ++ msg
          let ls3 := { ls2 with
            cs := setContent ls2.cs m.sectionIndex m.moduleIndex c,
            contentWrites := ls2.contentWrites ++ [(i, c)] }
          runNodes base env migrateAt now setFails (i + 1) rest ls3
        | NavResult.ok page =>
          let c := extractTextContent page
          let st2 : CurrentStateModel :=
            ⟨ls2.state.step, i + 1, ls2.state.totalModules,
             ls2.state.currentModule⟩
          let ls3 := { ls2 with
            cs := setContent ls2.cs m.sectionIndex m.moduleIndex c,
            contentWrites := ls2.contentWrites ++ [(i, c)],
            state := st2 }
          let ls4 :=
            if (i + 1) % 3 = 0 then
              { ls3 with
                store := (saveState setFails ls3.store ls3.state
                  ls3.dataList now).1,
                periodicSaves := ls3.periodicSaves ++ [i + 1] }
            else ls3
          runNodes base env migrateAt now setFails (i + 1) rest ls4

/-- mkLoopState starts a loop state with empty traces. -/
def mkLoopState (cs : CourseStructure) (st : CurrentStateModel)
    (store : Option SavedState) (browserOpen : Bool) (data : List String) :
    LoopState :=
  ⟨cs, st, store, browserOpen, data, [], [], [], [], none⟩

/-- scrapeDirectWithIds models `SkoolScraper.scrapeDirectWithIds`: a
missing course structure is a thrown error; otherwise the modules with ids
are collected, `totalModules` is set, and the loop runs from the current
`processedModules`. The second component is the message of the error the
call throws, when it throws. -/
def scrapeDirectWithIds (discovered : Option CourseStructure)
    (base : Option String) (env : Nat → NavResult)
    (migrateAt : Nat → Bool) (now : Int) (setFails : Bool)
    (st : CurrentStateModel) (data : List String)
    (store : Option SavedState) (browserOpen : Bool) :
    LoopState × Option String :=
  match discovered with
  | none =>
    (mkLoopState ⟨[]⟩ st store browserOpen data,
     some "Failed to extract course structure")
  | some cs =>
    let allMods := collectModules cs
    let st1 : CurrentStateModel :=
      ⟨st.step, st.processedModules, allMods.length, st.currentModule⟩
    let ls0 := mkLoopState cs st1 store browserOpen data
    let (ls, ex) := runNodes base env migrateAt now setFails
      st1.processedModules (allMods.drop st1.processedModules) ls0
    match ex with
    | RunExit.migrated => (ls, some "Migration in progress")
    | RunExit.finished => (ls, none)

/-- Input is the Actor input `{email, password, classroomUrl}`; a missing
or empty field is falsy. -/
structure Input where
  email : Option String
  password : Option String
  classroomUrl : Option String
deriving DecidableEq, Repr

/-- OutEntry is one record of the flattened output data. -/
structure OutEntry where
  courseTitle : String
  moduleTitle : String
  moduleId : Option String
  videoLink : String
  content : String
  scrapedAt : Int
deriving DecidableEq, Repr

/-- outEntryOf builds the flattened output record for one module of one
section: `videoLink || ""` and `content || "No content scraped"` keep the
JS truthiness coercions. -/
def outEntryOf (s : CSection) (m : CModule) (now : Int) : OutEntry :=
  ⟨s.courseTitle, m.title, m.Id,
   (match m.videoLink with
    | some v => v
    | none => ""),
   (match m.content with
    | some c => if c = "" then "No content scraped" else c
    | none => "No content scraped"),
   now⟩

/-- flattenOutput is the `flattenedData` array built in `Actor.main` from
the harvested course structure: one record per discovered module, in
section-then-module order. -/
def flattenOutput (cs : CourseStructure) (now : Int) : List OutEntry :=
  (cs.sections.map (fun s => s.childrenCourses.map (fun m =>
    outEntryOf s m now))).flatten

/-- Pushed is one record handed to `Actor.pushData`: the single aggregate
result, or one flattened item. -/
inductive Pushed
  | aggregate (totalSections : Nat) (totalModules : Nat)
      (data : List OutEntry) (rawStructure : CourseStructure)
  | item (e : OutEntry)
deriving DecidableEq, Repr

/-- ExitStatus is the process outcome of `Actor.main`: a normal return
(exit code 0) or a propagated error (non-zero exit). -/
inductive ExitStatus
  | success
  | failure (msg : String)
deriving DecidableEq, Repr

/-- MainResult is everything observable about one `Actor.main` run: the
exit status, the key/value store afterwards, the records pushed to the
dataset in order, the final in-memory state, the loop traces, and whether
the browser is still open at the very end (the `finally` always closes
it). -/
structure MainResult where
  exit : ExitStatus
  store : Option SavedState
  pushed : List Pushed
  finalState : CurrentStateModel
  attempted : List Nat
  navigated : List Nat
  contentWrites : List (Nat × String)
  browserOpen : Bool

/-- InitResult is the outcome of `SkoolScraper.init`: the state and data
after the load, whether a restore happened, and whether the browser was
launched (a restored completed state returns before launching it). -/
structure InitResult where
  state : CurrentStateModel
  dataList : List String
  resumed : Bool
  browserOpen : Bool

/-- init models `SkoolScraper.init`: load the saved state; when a restore
yields a completed run, return before launching the browser; otherwise
launch it and, on a fresh start, move the step to `initialized`. -/
def init (getFails : Bool) (store0 : Option SavedState) (now : Int) :
    InitResult :=
  let r := loadState getFails store0 now initialState []
  let resumed := r.1
  let st := r.2.1
  let data := r.2.2
  if resumed ∧ st.step = Step.completed then
    ⟨st, data, resumed, false⟩
  else if resumed then ⟨st, data, resumed, true⟩
  else ⟨⟨Step.initialized, st.processedModules, st.totalModules,
         st.currentModule⟩, data, resumed, true⟩

/-- runMainScrape is the tail of `Actor.main` from the
`scrapeDirectWithIds` call on: flatten the structure, mark the state
completed, save it, push the aggregate record then one record per module;
a thrown `"Migration in progress"` is caught and the run returns normally,
any other thrown message propagates as a failure; the `finally` closes the
browser on every path. -/
def runMainScrape (discovered : Option CourseStructure)
    (base : Option String) (env : Nat → NavResult)
    (migrateAt : Nat → Bool) (now : Int) (setFails : Bool)
    (st : CurrentStateModel) (data : List String)
    (store : Option SavedState) : MainResult :=
  let r := scrapeDirectWithIds discovered base env migrateAt now setFails
    st data store true
  let ls := r.1
  match r.2 with
  | some msg =>
    if msg = "Migration in progress" then
      ⟨ExitStatus.success, ls.store, [], ls.state, ls.attempted,
       ls.navigated, ls.contentWrites, false⟩
    else
      ⟨ExitStatus.failure msg, ls.store, [], ls.state, ls.attempted,
       ls.navigated, ls.contentWrites, false⟩
  | none =>
    let out := flattenOutput ls.cs now
    let st2 : CurrentStateModel :=
      ⟨Step.completed, ls.state.processedModules, ls.state.totalModules,
       ls.state.currentModule⟩
    let store2 := (saveState setFails ls.store st2 ls.dataList now).1
    ⟨ExitStatus.success, store2,
     Pushed.aggregate ls.cs.sections.length out.length out ls.cs ::
       out.map Pushed.item,
     st2, ls.attempted, ls.navigated, ls.contentWrites, false⟩

/-- actorMain models the `Actor.main` entry point: validate the input,
init (restore the checkpoint), return at once on a completed run, log in
unless already authenticated, navigate to the classroom unless already
scraping (only this navigation sets the base classroom URL), then harvest
and emit. `loginFails`, `migrateDuringLogin` and `navFails` are the
behaviours of the external collaborators on this run. -/
def actorMain (input : Input) (getFails : Bool)
    (store0 : Option SavedState) (now : Int) (setFails : Bool)
    (loginFails : Bool) (migrateDuringLogin : Bool) (navFails : Bool)
    (discovered : Option CourseStructure) (env : Nat → NavResult)
    (migrateAt : Nat → Bool) : MainResult :=
  if input.email.getD "" = "" ∨ input.password.getD "" = "" ∨
      input.classroomUrl.getD "" = "" then
    ⟨ExitStatus.failure
       "Missing required input parameters: email, password, and classroomUrl",
     store0, [], initialState, [], [], [], false⟩
  else
    let ir := init getFails store0 now
    if ir.state.step = Step.completed then
      ⟨ExitStatus.success, store0, [], ir.state, [], [], [], false⟩
    else
      let skipLogin := ir.state.step = Step.logged_in ∨
        ir.state.step = Step.scraping
      if ¬skipLogin ∧ loginFails then
        ⟨ExitStatus.failure "Login failed", store0, [], ir.state, [], [],
         [], false⟩
      else if ¬skipLogin ∧ migrateDuringLogin then
        let store1 := prepareMigration setFails store0 ir.state
          ir.dataList now
        ⟨ExitStatus.success, store1, [], ir.state, [], [], [], false⟩
      else
        let st1 : CurrentStateModel :=
          if skipLogin then ir.state
          else ⟨Step.logged_in, ir.state.processedModules,
                ir.state.totalModules, ir.state.currentModule⟩
        let store1 :=
          if skipLogin then store0
          else (saveState setFails store0 st1 ir.dataList now).1
        if st1.step ≠ Step.scraping then
          if navFails then
            ⟨ExitStatus.failure "Navigation to classroom failed", store1,
             [], st1, [], [], [], false⟩
          else
            let base := input.classroomUrl
            let st2 : CurrentStateModel :=
              ⟨Step.scraping, st1.processedModules, st1.totalModules,
               st1.currentModule⟩
            let store2 := (saveState setFails store1 st2 ir.dataList now).1
            runMainScrape discovered base env migrateAt now setFails st2
              ir.dataList store2
        else
          runMainScrape discovered none env migrateAt now setFails st1
            ir.dataList store1

/-- nodeContent is the string that iteration `i` of the loop writes into
the structure: the extracted text on success, the caught error message
otherwise. -/
def nodeContent (env : Nat → NavResult) (i : Nat) : String :=
  match env i with
  | NavResult.ok p => extractTextContent p
  | NavResult.err msg => "Error scraping content: " ++ msg

/-- envIsOk says whether navigation at index `i` succeeds. -/
def envIsOk (env : Nat → NavResult) (i : Nat) : Bool :=
  match env i with
  | NavResult.ok _ => true
  | NavResult.err _ => false

/-- errState is the loop state after a failing iteration `i` on module
`m`: content written, traces extended, cursor untouched. -/
def errState (m : FlatModule) (i : Nat) (msg : String) (ls : LoopState) :
    LoopState :=
  { ls with
    state := ⟨ls.state.step, ls.state.processedModules,
      ls.state.totalModules, some m.title⟩,
    attempted := ls.attempted ++ [i],
    navigated := ls.navigated ++ [i],
    cs := setContent ls.cs m.sectionIndex m.moduleIndex
      ("Error scraping content: " ++ msg),
    contentWrites := ls.contentWrites ++
      [(i, "Error scraping content: " ++ msg)] }

/-- okState is the loop state after a successful iteration `i` on module
`m`, before the periodic-save check: content written, traces extended,
cursor advanced to `i + 1`. -/
def okState (m : FlatModule) (i : Nat) (page : Page) (ls : LoopState) :
    LoopState :=
  { ls with
    state := ⟨ls.state.step, i + 1, ls.state.totalModules, some m.title⟩,
    attempted := ls.attempted ++ [i],
    navigated := ls.navigated ++ [i],
    cs := setContent ls.cs m.sectionIndex m.moduleIndex
      (extractTextContent page),
    contentWrites := ls.contentWrites ++ [(i, extractTextContent page)] }

/-- okSaveState additionally applies the every-3-modules save. -/
def okSaveState (m : FlatModule) (i : Nat) (page : Page) (now : Int)
    (setFails : Bool) (ls : LoopState) : LoopState :=
  { okState m i page ls with
    store := (saveState setFails ls.store
      ⟨ls.state.step, i + 1, ls.state.totalModules, some m.title⟩
      ls.dataList now).1,
    periodicSaves := ls.periodicSaves ++ [i + 1] }

/-- migrateState is the loop state at a migration observed before
iteration `i`: cursor persisted at `i`, browser closed. -/
def migrateState (i : Nat) (now : Int) (setFails : Bool) (ls : LoopState) :
    LoopState :=
  { ls with
    state := ⟨ls.state.step, i, ls.state.totalModules,
      ls.state.currentModule⟩,
    store := prepareMigration setFails ls.store
      ⟨ls.state.step, i, ls.state.totalModules, ls.state.currentModule⟩
      ls.dataList now,
    browserOpen := false,
    migrationSavedCursor := some i }

theorem runNodes_nil (base : Option String) (env : Nat → NavResult)
    (migrateAt : Nat → Bool) (now : Int) (setFails : Bool) (i : Nat)
    (ls : LoopState) :
    runNodes base env migrateAt now setFails i [] ls =
      (ls, RunExit.finished) := rfl

theorem runNodes_cons_migrate (base : Option String)
    (env : Nat → NavResult) (migrateAt : Nat → Bool) (now : Int)
    (setFails : Bool) (i : Nat) (m : FlatModule) (rest : List FlatModule)
    (ls : LoopState) (hmig : migrateAt i = true) :
    runNodes base env migrateAt now setFails i (m :: rest) ls =
      (migrateState i now setFails ls, RunExit.migrated) := by
  rw [runNodes, hmig]
  rfl

theorem runNodes_cons_noUrl (base : Option String)
    (env : Nat → NavResult) (migrateAt : Nat → Bool) (now : Int)
    (setFails : Bool) (i : Nat) (m : FlatModule) (rest : List FlatModule)
    (ls : LoopState) (hmig : migrateAt i = false)
    (hurl : generateModuleUrl base (some m.Id) = none) :
    runNodes base env migrateAt now setFails i (m :: rest) ls =
      runNodes base env migrateAt now setFails (i + 1) rest
        { ls with
          state := ⟨ls.state.step, ls.state.processedModules,
            ls.state.totalModules, some m.title⟩,
          attempted := ls.attempted ++ [i] } := by
  rw [runNodes, hmig]
  simp only [Bool.false_eq_true, if_false, hurl]

theorem runNodes_cons_err (base : Option String) (env : Nat → NavResult)
    (migrateAt : Nat → Bool) (now : Int) (setFails : Bool) (i : Nat)
    (m : FlatModule) (rest : List FlatModule) (ls : LoopState)
    (hmig : migrateAt i = false) (u : String)
    (hurl : generateModuleUrl base (some m.Id) = some u) (msg : String)
    (henv : env i = NavResult.err msg) :
    runNodes base env migrateAt now setFails i (m :: rest) ls =
      runNodes base env migrateAt now setFails (i + 1) rest
        (errState m i msg ls) := by
  rw [runNodes, hmig]
  simp only [Bool.false_eq_true, if_false, hurl, henv]
  rfl

theorem runNodes_cons_ok_save (base : Option String)
    (env : Nat → NavResult) (migrateAt : Nat → Bool) (now : Int)
    (setFails : Bool) (i : Nat) (m : FlatModule) (rest : List FlatModule)
    (ls : LoopState) (hmig : migrateAt i = false) (u : String)
    (hurl : generateModuleUrl base (some m.Id) = some u) (page : Page)
    (henv : env i = NavResult.ok page) (h3 : (i + 1) % 3 = 0) :
    runNodes base env migrateAt now setFails i (m :: rest) ls =
      runNodes base env migrateAt now setFails (i + 1) rest
        (okSaveState m i page now setFails ls) := by
  rw [runNodes, hmig]
  simp only [Bool.false_eq_true, if_false, hurl, henv, h3, if_true]
  rfl

theorem runNodes_cons_ok_nosave (base : Option String)
    (env : Nat → NavResult) (migrateAt : Nat → Bool) (now : Int)
    (setFails : Bool) (i : Nat) (m : FlatModule) (rest : List FlatModule)
    (ls : LoopState) (hmig : migrateAt i = false) (u : String)
    (hurl : generateModuleUrl base (some m.Id) = some u) (page : Page)
    (henv : env i = NavResult.ok page) (h3 : ¬(i + 1) % 3 = 0) :
    runNodes base env migrateAt now setFails i (m :: rest) ls =
      runNodes base env migrateAt now setFails (i + 1) rest
        (okState m i page ls) := by
  rw [runNodes, hmig]
  simp only [Bool.false_eq_true, if_false, hurl, henv, h3]
  rfl

/-- An uninterrupted pass attempts exactly the indices `i, i+1, ...`, one
per remaining module, in ascending order. -/
theorem runNodes_attempted (base : Option String) (env : Nat → NavResult)
    (migrateAt : Nat → Bool) (now : Int) (setFails : Bool)
    (hm : ∀ j, migrateAt j = false) :
    ∀ (rem : List FlatModule) (i : Nat) (ls : LoopState),
      (runNodes base env migrateAt now setFails i rem ls).1.attempted =
        ls.attempted ++ List.range' i rem.length := by
  intro rem
  induction rem with
  | nil => intro i ls; simp [runNodes_nil]
  | cons m rest ih =>
    intro i ls
    rcases hurl : generateModuleUrl base (some m.Id) with _ | u
    · rw [runNodes_cons_noUrl _ _ _ _ _ _ _ _ _ (hm i) hurl, ih]
      simp [List.range'_succ]
    · cases henv : env i with
      | err msg =>
        rw [runNodes_cons_err _ _ _ _ _ _ _ _ _ (hm i) u hurl msg henv, ih]
        simp [errState, List.range'_succ]
      | ok page =>
        by_cases h3 : (i + 1) % 3 = 0
        · rw [runNodes_cons_ok_save _ _ _ _ _ _ _ _ _ (hm i) u hurl page
            henv h3, ih]
          simp [okSaveState, okState, List.range'_succ]
        · rw [runNodes_cons_ok_nosave _ _ _ _ _ _ _ _ _ (hm i) u hurl page
            henv h3, ih]
          simp [okState, List.range'_succ]

/-- An uninterrupted pass finishes normally and leaves step, total count,
browser and data untouched. -/
theorem runNodes_preserved (base : Option String) (env : Nat → NavResult)
    (migrateAt : Nat → Bool) (now : Int) (setFails : Bool)
    (hm : ∀ j, migrateAt j = false) :
    ∀ (rem : List FlatModule) (i : Nat) (ls : LoopState),
      (runNodes base env migrateAt now setFails i rem ls).2 =
          RunExit.finished ∧
      (runNodes base env migrateAt now setFails i rem ls).1.state.step =
          ls.state.step ∧
      (runNodes base env migrateAt now setFails i rem
          ls).1.state.totalModules = ls.state.totalModules ∧
      (runNodes base env migrateAt now setFails i rem ls).1.browserOpen =
          ls.browserOpen ∧
      (runNodes base env migrateAt now setFails i rem ls).1.dataList =
          ls.dataList := by
  intro rem
  induction rem with
  | nil => intro i ls; simp [runNodes_nil]
  | cons m rest ih =>
    intro i ls
    rcases hurl : generateModuleUrl base (some m.Id) with _ | u
    · rw [runNodes_cons_noUrl _ _ _ _ _ _ _ _ _ (hm i) hurl]
      simpa using ih (i + 1) _
    · cases henv : env i with
      | err msg =>
        rw [runNodes_cons_err _ _ _ _ _ _ _ _ _ (hm i) u hurl msg henv]
        simpa [errState] using ih (i + 1) _
      | ok page =>
        by_cases h3 : (i + 1) % 3 = 0
        · rw [runNodes_cons_ok_save _ _ _ _ _ _ _ _ _ (hm i) u hurl page
            henv h3]
          simpa [okSaveState, okState, saveState, actorSetValue] using
            ih (i + 1) _
        · rw [runNodes_cons_ok_nosave _ _ _ _ _ _ _ _ _ (hm i) u hurl page
            henv h3]
          simpa [okState] using ih (i + 1) _

/-- On an uninterrupted pass over modules whose URLs all resolve, every
index is navigated and gets exactly one content write: the extracted text
on success, the caught error string on a navigation failure. -/
theorem runNodes_writes (base : Option String) (env : Nat → NavResult)
    (migrateAt : Nat → Bool) (now : Int) (setFails : Bool)
    (hm : ∀ j, migrateAt j = false) :
    ∀ (rem : List FlatModule) (i : Nat) (ls : LoopState),
      (∀ m ∈ rem, (generateModuleUrl base (some m.Id)).isSome = true) →
      (runNodes base env migrateAt now setFails i rem ls).1.navigated =
          ls.navigated ++ List.range' i rem.length ∧
      (runNodes base env migrateAt now setFails i rem
          ls).1.contentWrites = ls.contentWrites ++
          (List.range' i rem.length).map
            (fun j => (j, nodeContent env j)) := by
  intro rem
  induction rem with
  | nil => intro i ls _; simp [runNodes_nil]
  | cons m rest ih =>
    intro i ls hurls
    have hrest : ∀ x ∈ rest, (generateModuleUrl base (some x.Id)).isSome
        = true := fun x hx => hurls x (by simp [hx])
    rcases hurl : generateModuleUrl base (some m.Id) with _ | u
    · have := hurls m (by simp)
      rw [hurl] at this
      simp at this
    · cases henv : env i with
      | err msg =>
        rw [runNodes_cons_err _ _ _ _ _ _ _ _ _ (hm i) u hurl msg henv]
        obtain ⟨h1, h2⟩ := ih (i + 1) (errState m i msg ls) hrest
        constructor
        · rw [h1]; simp [errState, List.range'_succ]
        · rw [h2]; simp [errState, List.range'_succ, nodeContent, henv]
      | ok page =>
        by_cases h3 : (i + 1) % 3 = 0
        · rw [runNodes_cons_ok_save _ _ _ _ _ _ _ _ _ (hm i) u hurl page
            henv h3]
          obtain ⟨h1, h2⟩ := ih (i + 1) (okSaveState m i page now setFails
            ls) hrest
          constructor
          · rw [h1]; simp [okSaveState, okState, List.range'_succ]
          · rw [h2]
            simp [okSaveState, okState, List.range'_succ, nodeContent,
              henv]
        · rw [runNodes_cons_ok_nosave _ _ _ _ _ _ _ _ _ (hm i) u hurl page
            henv h3]
          obtain ⟨h1, h2⟩ := ih (i + 1) (okState m i page ls) hrest
          constructor
          · rw [h1]; simp [okState, List.range'_succ]
          · rw [h2]; simp [okState, List.range'_succ, nodeContent, henv]

/-- On an uninterrupted pass over modules whose URLs all resolve, the
cursor after the pass is the fold that moves to `j + 1` exactly at each
successful index `j` — a failing node leaves it where it was — and the
periodic saves are exactly the successful indices whose advanced counter
is a positive multiple of 3. -/
theorem runNodes_cursor_saves (base : Option String)
    (env : Nat → NavResult) (migrateAt : Nat → Bool) (now : Int)
    (setFails : Bool) (hm : ∀ j, migrateAt j = false) :
    ∀ (rem : List FlatModule) (i : Nat) (ls : LoopState),
      (∀ m ∈ rem, (generateModuleUrl base (some m.Id)).isSome = true) →
      (runNodes base env migrateAt now setFails i rem
          ls).1.state.processedModules =
        List.foldl (fun acc j => if envIsOk env j then j + 1 else acc)
          ls.state.processedModules (List.range' i rem.length) ∧
      (runNodes base env migrateAt now setFails i rem
          ls).1.periodicSaves = ls.periodicSaves ++
        (List.range' i rem.length).filterMap
          (fun j => if envIsOk env j = true ∧ (j + 1) % 3 = 0
            then some (j + 1) else none) := by
  intro rem
  induction rem with
  | nil => intro i ls _; simp [runNodes_nil]
  | cons m rest ih =>
    intro i ls hurls
    have hrest : ∀ x ∈ rest, (generateModuleUrl base (some x.Id)).isSome
        = true := fun x hx => hurls x (by simp [hx])
    rcases hurl : generateModuleUrl base (some m.Id) with _ | u
    · have := hurls m (by simp)
      rw [hurl] at this
      simp at this
    · cases henv : env i with
      | err msg =>
        rw [runNodes_cons_err _ _ _ _ _ _ _ _ _ (hm i) u hurl msg henv]
        obtain ⟨h1, h2⟩ := ih (i + 1) (errState m i msg ls) hrest
        constructor
        · rw [h1]; simp [errState, List.range'_succ, envIsOk, henv]
        · rw [h2]; simp [errState, List.range'_succ, envIsOk, henv]
      | ok page =>
        by_cases h3 : (i + 1) % 3 = 0
        · rw [runNodes_cons_ok_save _ _ _ _ _ _ _ _ _ (hm i) u hurl page
            henv h3]
          obtain ⟨h1, h2⟩ := ih (i + 1) (okSaveState m i page now setFails
            ls) hrest
          constructor
          · rw [h1]
            simp [okSaveState, okState, List.range'_succ, envIsOk, henv]
          · rw [h2]
            simp [okSaveState, okState, List.range'_succ, envIsOk, henv,
              h3]
        · rw [runNodes_cons_ok_nosave _ _ _ _ _ _ _ _ _ (hm i) u hurl page
            henv h3]
          obtain ⟨h1, h2⟩ := ih (i + 1) (okState m i page ls) hrest
          constructor
          · rw [h1]; simp [okState, List.range'_succ, envIsOk, henv]
          · rw [h2]; simp [okState, List.range'_succ, envIsOk, henv, h3]

/-- In any run of the loop, interrupted or not, over any environment, the
cursor stays at most `i + rem.length` when it starts at most `i` — the
loop writes only the values `j` (at a migration) or `j + 1` (on success)
for loop indices `j < i + rem.length`. -/
theorem runNodes_cursor_le (base : Option String) (env : Nat → NavResult)
    (migrateAt : Nat → Bool) (now : Int) (setFails : Bool) :
    ∀ (rem : List FlatModule) (i : Nat) (ls : LoopState),
      ls.state.processedModules ≤ i + rem.length →
      (runNodes base env migrateAt now setFails i rem
          ls).1.state.processedModules ≤ i + rem.length := by
  intro rem
  induction rem with
  | nil => intro i ls h; simpa [runNodes_nil] using h
  | cons m rest ih =>
    intro i ls h
    simp only [List.length_cons] at h ⊢
    by_cases hmig : migrateAt i = true
    · rw [runNodes_cons_migrate _ _ _ _ _ _ _ _ _ hmig]
      simp [migrateState]
    · rw [Bool.not_eq_true] at hmig
      rcases hurl : generateModuleUrl base (some m.Id) with _ | u
      · rw [runNodes_cons_noUrl _ _ _ _ _ _ _ _ _ hmig hurl]
        have := ih (i + 1) ({ ls with
          state := ⟨ls.state.step, ls.state.processedModules,
            ls.state.totalModules, some m.title⟩,
          attempted := ls.attempted ++ [i] }) (by simp; omega)
        omega
      · cases henv : env i with
        | err msg =>
          rw [runNodes_cons_err _ _ _ _ _ _ _ _ _ hmig u hurl msg henv]
          have := ih (i + 1) (errState m i msg ls)
            (by simp [errState]; omega)
          omega
        | ok page =>
          by_cases h3 : (i + 1) % 3 = 0
          · rw [runNodes_cons_ok_save _ _ _ _ _ _ _ _ _ hmig u hurl page
              henv h3]
            have := ih (i + 1) (okSaveState m i page now setFails ls)
              (by simp [okSaveState, okState])
            omega
          · rw [runNodes_cons_ok_nosave _ _ _ _ _ _ _ _ _ hmig u hurl page
              henv h3]
            have := ih (i + 1) (okState m i page ls)
              (by simp [okState])
            omega

/-- When the interruption flag first fires at index `k` inside the loop
window and the store is healthy, the loop exits via the migration path:
the cursor is set to `k` (the not yet attempted index), the persisted
snapshot carries exactly that cursor, and the browser is closed before
control returns. -/
theorem runNodes_firstMigrate (base : Option String)
    (env : Nat → NavResult) (migrateAt : Nat → Bool) (now : Int) (k : Nat)
    (hk : migrateAt k = true) :
    ∀ (rem : List FlatModule) (i : Nat) (ls : LoopState),
      i ≤ k → k < i + rem.length →
      (∀ j, i ≤ j → j < k → migrateAt j = false) →
      (runNodes base env migrateAt now false i rem ls).2 =
          RunExit.migrated ∧
      (runNodes base env migrateAt now false i rem
          ls).1.state.processedModules = k ∧
      (runNodes base env migrateAt now false i rem ls).1.browserOpen =
          false ∧
      (runNodes base env migrateAt now false i rem
          ls).1.migrationSavedCursor = some k ∧
      Option.map SavedState.processedModules
        (runNodes base env migrateAt now false i rem ls).1.store =
          some k := by
  intro rem
  induction rem with
  | nil =>
    intro i ls h1 h2 _
    simp at h2
    omega
  | cons m rest ih =>
    intro i ls h1 h2 hfire
    rcases Nat.eq_or_lt_of_le h1 with heq | hlt
    · subst heq
      rw [runNodes_cons_migrate _ _ _ _ _ _ _ _ _ hk]
      simp [migrateState, prepareMigration, saveState, actorSetValue,
        mkSaved]
    · have hmig : migrateAt i = false := hfire i (le_refl i) hlt
      simp only [List.length_cons] at h2
      rcases hurl : generateModuleUrl base (some m.Id) with _ | u
      · rw [runNodes_cons_noUrl _ _ _ _ _ _ _ _ _ hmig hurl]
        exact ih (i + 1) _ hlt (by omega)
          (fun j hj1 hj2 => hfire j (by omega) hj2)
      · cases henv : env i with
        | err msg =>
          rw [runNodes_cons_err _ _ _ _ _ _ _ _ _ hmig u hurl msg henv]
          exact ih (i + 1) _ hlt (by omega)
            (fun j hj1 hj2 => hfire j (by omega) hj2)
        | ok page =>
          by_cases h3 : (i + 1) % 3 = 0
          · rw [runNodes_cons_ok_save _ _ _ _ _ _ _ _ _ hmig u hurl page
              henv h3]
            exact ih (i + 1) _ hlt (by omega)
              (fun j hj1 hj2 => hfire j (by omega) hj2)
          · rw [runNodes_cons_ok_nosave _ _ _ _ _ _ _ _ _ hmig u hurl page
              henv h3]
            exact ih (i + 1) _ hlt (by omega)
              (fun j hj1 hj2 => hfire j (by omega) hj2)

/-- Any value the fallback probe returns is longer than 10 characters. -/
theorem fallbackOver_gt (p : Page) :
    ∀ (sels : List String) (t : String),
      fallbackOver p sels = some t → t.length > 10 := by
  intro sels
  induction sels with
  | nil => intro t h; simp [fallbackOver] at h
  | cons sel rest ih =>
    intro t h
    rw [fallbackOver] at h
    cases hq : p.query sel with
    | none => rw [hq] at h; exact ih t h
    | some u =>
      rw [hq] at h
      have h' : (if u ≠ "" ∧ u.length > 10 then some u
          else fallbackOver p rest) = some t := h
      by_cases hu : u ≠ "" ∧ u.length > 10
      · rw [if_pos hu] at h'
        injection h' with h'
        subst h'
        exact hu.2
      · rw [if_neg hu] at h'
        exact ih t h' 

/-- C3: the checkpoint load applies the one-hour staleness policy — a
snapshot younger than one hour restores the saved step, cursor and partial
data; a snapshot older than one hour is not restored, the state keeps its
fresh values, and the subsequent `init` proceeds exactly as a fresh run
(step moves to `initialized`, cursor 0). -/
theorem c3_checkpoint_staleness (s : SavedState) (now : Int)
    (st : CurrentStateModel) (data : List String) :
    (0 < s.timestamp → now - s.timestamp < 3600000 →
      loadState false (some s) now st data =
        (true, ⟨s.step, s.processedModules, s.totalModules,
          s.currentModule⟩, s.scrapedData)) ∧
    (now - s.timestamp > 3600000 →
      loadState false (some s) now st data = (false, st, data)) ∧
    (now - s.timestamp > 3600000 →
      init false (some s) now =
        ⟨⟨Step.initialized, 0, 0, none⟩, [], false, true⟩) := by
  refine ⟨?_, ?_, ?_⟩
  · intro h1 h2
    have hne : s.timestamp ≠ 0 := by omega
    have hgt : s.timestamp > now - 3600000 := by omega
    simp [loadState, actorGetValue, hne, hgt]
  · intro h1
    have hle : ¬s.timestamp > now - 3600000 := by omega
    by_cases hne : s.timestamp = 0
    · simp [loadState, actorGetValue, hne]
    · simp [loadState, actorGetValue, hne, hle]
  · intro h1
    have hle : ¬s.timestamp > now - 3600000 := by omega
    by_cases hne : s.timestamp = 0
    · simp [init, loadState, actorGetValue, hne, initialState]
    · simp [init, loadState, actorGetValue, hne, hle, initialState]

/-- Witness for C3 at concrete snapshots: one saved 30 minutes ago is
restored with its step, cursor and data; one saved two hours ago is
ignored. -/
theorem c3_checkpoint_staleness_witness :
    loadState false
        (some ⟨Step.scraping, 2, 5, none, ["d"], 1800000⟩) 3600000
        initialState [] =
      (true, ⟨Step.scraping, 2, 5, none⟩, ["d"]) ∧
    loadState false
        (some ⟨Step.scraping, 2, 5, none, ["d"], 1000000⟩) 9000000
        initialState [] =
      (false, initialState, []) :=
  ⟨(c3_checkpoint_staleness ⟨Step.scraping, 2, 5, none, ["d"], 1800000⟩
      3600000 initialState []).1 (by decide) (by decide),
   (c3_checkpoint_staleness ⟨Step.scraping, 2, 5, none, ["d"], 1000000⟩
      9000000 initialState []).2.1 (by decide)⟩

/-- C10: the checkpoint store operations absorb every persistence error —
a failed save returns normally with the store and the in-memory state
unchanged; a failed read and a malformed snapshot (falsy timestamp) each
make the load return `false` with the state keeping its previous values;
and a harvest pass whose every save fails still runs to completion. -/
theorem c10_store_absorbs (store : Option SavedState)
    (st : CurrentStateModel) (data : List String) (now : Int) :
    saveState true store st data now = (store, st) ∧
    loadState true store now st data = (false, st, data) ∧
    (∀ (stp : Step) (pm tm : Nat) (cm : Option String)
        (sd : List String),
      loadState false (some ⟨stp, pm, tm, cm, sd, 0⟩) now st data =
        (false, st, data)) ∧
    (∀ (env : Nat → NavResult) (base : Option String) (i : Nat)
        (rem : List FlatModule) (ls : LoopState),
      (runNodes base env (fun _ => false) now true i rem ls).2 =
        RunExit.finished) := by
  refine ⟨?_, ?_, ?_, ?_⟩
  · simp [saveState, actorSetValue]
  · simp [loadState, actorGetValue]
  · intro stp pm tm cm sd
    simp [loadState, actorGetValue]
  · intro env base i rem ls
    exact (runNodes_preserved base env (fun _ => false) now true
      (fun _ => rfl) rem i ls).1

/-- pShortPrimary has a primary editor text of 2 characters and a
fallback container with a text of more than 10 characters. -/
def pShortPrimary : Page :=
  ⟨fun s => if s = ".tiptap.ProseMirror.skool-editor2" then some "hi"
    else if s = ".content" then some "a much longer fallback text"
    else none,
   false⟩

/-- C7 counterexample: the page has a container whose text exceeds 10
characters (the `.content` fallback qualifies), yet the extractor returns
the 2-character primary text — the more-than-10-characters stopping rule
is not applied to the primary container. -/
theorem c7_counterexample :
    extractTextContent pShortPrimary = "hi" ∧
    ¬(10 < "hi".length) ∧
    fallbackResult pShortPrimary = some "a much longer fallback text" ∧
    10 < "a much longer fallback text".length := by
  refine ⟨by decide, by decide, by decide, by decide⟩

theorem collectSection_Id_ne (si : Nat) (t : String) :
    ∀ (ms : List CModule) (mi : Nat) (m : FlatModule),
      m ∈ collectSection si t mi ms → m.Id ≠ "" := by
  intro ms
  induction ms with
  | nil => intro mi m h; simp [collectSection] at h
  | cons a as ih =>
    intro mi m h
    rw [collectSection] at h
    cases ha : a.Id with
    | none =>
      rw [ha] at h
      exact ih _ _ h
    | some id =>
      rw [ha] at h
      have h' : m ∈ (if id = "" then collectSection si t (mi + 1) as
          else (⟨a.title, a.videoLink, id, si, mi, t⟩ : FlatModule) ::
            collectSection si t (mi + 1) as) := h
      by_cases hid : id = ""
      · rw [if_pos hid] at h'
        exact ih _ _ h'
      · rw [if_neg hid] at h'
        rcases List.mem_cons.mp h' with h'' | h''
        · subst h''
          simpa using hid
        · exact ih _ _ h''

theorem collectFrom_Id_ne :
    ∀ (ss : List CSection) (si : Nat) (m : FlatModule),
      m ∈ collectFrom si ss → m.Id ≠ "" := by
  intro ss
  induction ss with
  | nil => intro si m h; simp [collectFrom] at h
  | cons s rest ih =>
    intro si m h
    rw [collectFrom] at h
    rcases List.mem_append.mp h with h | h
    · exact collectSection_Id_ne _ _ _ _ _ h
    · exact ih _ _ h

/-- Every module collected into `allModules` has a truthy id, so its
module URL resolves whenever the base URL is truthy. -/
theorem collectModules_url_ok (cs : CourseStructure) (b : String)
    (hb : b ≠ "") (m : FlatModule) (h : m ∈ collectModules cs) :
    (generateModuleUrl (some b) (some m.Id)).isSome = true := by
  have hid : m.Id ≠ "" := collectFrom_Id_ne _ _ _ h
  simp [generateModuleUrl, hb, hid]

/-- C7 amended: the extractor always returns a string and never the empty
string; a throw inside evaluation is absorbed into the
`"Error extracting content"` sentinel; a non-empty primary-editor text is
returned as is, with no length threshold; only when the primary container
is absent or empty are the fallback selectors probed in priority order
under the more-than-10-characters rule, and with no qualifying container
the `"No content found"` sentinel is returned. -/
theorem c7_extractor_amended (p : Page) :
    extractTextContent p ≠ "" ∧
    (p.evalThrows = true →
      extractTextContent p = "Error extracting content") ∧
    (p.evalThrows = false → ∀ t, p.query primarySelector = some t →
      t ≠ "" → extractTextContent p = t) ∧
    (p.evalThrows = false →
      (p.query primarySelector = none ∨
        p.query primarySelector = some "") →
      extractTextContent p =
        (fallbackResult p).getD "No content found") ∧
    (∀ t, fallbackResult p = some t → 10 < t.length) := by
  have hfb : ∀ t, fallbackResult p = some t → 10 < t.length :=
    fun t h => fallbackOver_gt p contentSelectors t h
  refine ⟨?_, ?_, ?_, ?_, hfb⟩
  · cases he : p.evalThrows with
    | true => simp [extractTextContent, he]
    | false =>
      rw [extractTextContent]
      simp only [he, Bool.false_eq_true, if_false]
      cases hq : p.query primarySelector with
      | none =>
        cases hf : fallbackResult p with
        | none => simp [hf]
        | some t =>
          have := hfb t hf
          have ht : t ≠ "" := by
            intro h0
            rw [h0] at this
            simp at this
          simp [hf, ht]
      | some t =>
        by_cases ht : t = ""
        · subst ht
          simp only [if_pos rfl]
          cases hf : fallbackResult p with
          | none => simp [hf]
          | some u =>
            have := hfb u hf
            have hu : u ≠ "" := by
              intro h0
              rw [h0] at this
              simp at this
            simp [hf, hu]
        · simp [ht]
  · intro he
    simp [extractTextContent, he]
  · intro he t hq ht
    rw [extractTextContent]
    simp [he, hq, ht]
  · intro he hq
    rw [extractTextContent]
    simp only [he, Bool.false_eq_true, if_false]
    rcases hq with hq | hq
    · rw [hq]
      cases hf : fallbackResult p with
      | none => simp [hf]
      | some u =>
        have := hfb u hf
        have hu : u ≠ "" := by
          intro h0
          rw [h0] at this
          simp at this
        simp [hf, hu]
    · rw [hq]
      simp only [if_pos rfl]
      cases hf : fallbackResult p with
      | none => simp [hf]
      | some u =>
        have := hfb u hf
        have hu : u ≠ "" := by
          intro h0
          rw [h0] at this
          simp at this
        simp [hf, hu]

/-- Witness for the amended C7 on concrete pages: a throwing page yields
the error sentinel; a page whose primary text is the 2-character "hi"
yields "hi"; a page with no containers yields "No content found". -/
theorem c7_extractor_amended_witness :
    extractTextContent ⟨fun _ => none, true⟩ = "Error extracting content" ∧
    extractTextContent pShortPrimary = "hi" ∧
    extractTextContent ⟨fun _ => none, false⟩ = "No content found" :=
  ⟨(c7_extractor_amended ⟨fun _ => none, true⟩).2.1 rfl,
   (c7_extractor_amended pShortPrimary).2.2.1 rfl "hi" (by decide)
     (by decide),
   by
     have := (c7_extractor_amended ⟨fun _ => none, false⟩).2.2.2.1 rfl
       (Or.inl rfl)
     simpa [fallbackResult, fallbackOver, contentSelectors] using this⟩

/-- scrapeDirectWithIds with a discovered structure is the loop over the
modules dropped up to the resumed cursor, with `totalModules` set first;
its state component is the loop state and its thrown message mirrors the
loop exit. -/
theorem scrapeDirectWithIds_eq (cs : CourseStructure)
    (base : Option String) (env : Nat → NavResult)
    (migrateAt : Nat → Bool) (now : Int) (setFails : Bool)
    (st : CurrentStateModel) (data : List String)
    (store : Option SavedState) (bo : Bool) :
    scrapeDirectWithIds (some cs) base env migrateAt now setFails st data
        store bo =
      ((runNodes base env migrateAt now setFails st.processedModules
          ((collectModules cs).drop st.processedModules)
          (mkLoopState cs ⟨st.step, st.processedModules,
            (collectModules cs).length, st.currentModule⟩ store bo
            data)).1,
       match (runNodes base env migrateAt now setFails st.processedModules
          ((collectModules cs).drop st.processedModules)
          (mkLoopState cs ⟨st.step, st.processedModules,
            (collectModules cs).length, st.currentModule⟩ store bo
            data)).2 with
       | RunExit.migrated => some "Migration in progress"
       | RunExit.finished => none) := by
  rw [scrapeDirectWithIds]
  rcases hr : runNodes base env migrateAt now setFails st.processedModules
      ((collectModules cs).drop st.processedModules)
      (mkLoopState cs ⟨st.step, st.processedModules,
        (collectModules cs).length, st.currentModule⟩ store bo data)
    with ⟨ls, ex⟩
  cases ex <;> simp [hr]

/-- C1: resuming the Coordinator on a checkpoint in the harvesting window
attempts (and navigates) exactly the flattened node indices from the
resumed cursor up to the total, in ascending order, and in particular
never an index below the cursor; the total is the flattened module
count. -/
theorem c1_resume_window (cs : CourseStructure) (b : String)
    (hb : b ≠ "") (env : Nat → NavResult) (migrateAt : Nat → Bool)
    (hm : ∀ j, migrateAt j = false) (now : Int) (setFails : Bool)
    (st : CurrentStateModel) (data : List String)
    (store : Option SavedState) (bo : Bool)
    (hcur : st.processedModules < (collectModules cs).length) :
    (scrapeDirectWithIds (some cs) (some b) env migrateAt now setFails st
        data store bo).1.attempted =
      List.range' st.processedModules
        ((collectModules cs).length - st.processedModules) ∧
    (scrapeDirectWithIds (some cs) (some b) env migrateAt now setFails st
        data store bo).1.navigated =
      List.range' st.processedModules
        ((collectModules cs).length - st.processedModules) ∧
    (∀ j ∈ (scrapeDirectWithIds (some cs) (some b) env migrateAt now
        setFails st data store bo).1.attempted,
      st.processedModules ≤ j) ∧
    (scrapeDirectWithIds (some cs) (some b) env migrateAt now setFails st
        data store bo).1.state.totalModules =
      (collectModules cs).length := by
  have hurls : ∀ m ∈ (collectModules cs).drop st.processedModules,
      (generateModuleUrl (some b) (some m.Id)).isSome = true :=
    fun m hmem =>
      collectModules_url_ok cs b hb m (List.mem_of_mem_drop hmem)
  have hatt := runNodes_attempted (some b) env migrateAt now setFails hm
    ((collectModules cs).drop st.processedModules) st.processedModules
    (mkLoopState cs ⟨st.step, st.processedModules,
      (collectModules cs).length, st.currentModule⟩ store bo data)
  have hw := runNodes_writes (some b) env migrateAt now setFails hm
    ((collectModules cs).drop st.processedModules) st.processedModules
    (mkLoopState cs ⟨st.step, st.processedModules,
      (collectModules cs).length, st.currentModule⟩ store bo data) hurls
  have hp := runNodes_preserved (some b) env migrateAt now setFails hm
    ((collectModules cs).drop st.processedModules) st.processedModules
    (mkLoopState cs ⟨st.step, st.processedModules,
      (collectModules cs).length, st.currentModule⟩ store bo data)
  have hA : (scrapeDirectWithIds (some cs) (some b) env migrateAt now
      setFails st data store bo).1.attempted =
      List.range' st.processedModules
        ((collectModules cs).length - st.processedModules) := by
    rw [scrapeDirectWithIds_eq]
    simpa [mkLoopState, List.length_drop] using hatt
  have hN : (scrapeDirectWithIds (some cs) (some b) env migrateAt now
      setFails st data store bo).1.navigated =
      List.range' st.processedModules
        ((collectModules cs).length - st.processedModules) := by
    rw [scrapeDirectWithIds_eq]
    simpa [mkLoopState, List.length_drop] using hw.1
  have hT : (scrapeDirectWithIds (some cs) (some b) env migrateAt now
      setFails st data store bo).1.state.totalModules =
      (collectModules cs).length := by
    rw [scrapeDirectWithIds_eq]
    simpa [mkLoopState] using hp.2.2.1
  refine ⟨hA, hN, ?_, hT⟩
  intro j hj
  rw [hA] at hj
  exact (List.mem_range'_1.mp hj).1

/-- csW is a two-section discovered structure: three modules carry ids
`a`, `b`, `c`; the last module has no id. -/
def csW : CourseStructure :=
  ⟨[⟨"S1", [⟨"M1", none, some "a", none⟩,
            ⟨"M2", some "v", some "b", none⟩]⟩,
    ⟨"S2", [⟨"M3", none, some "c", none⟩,
            ⟨"M4", none, none, none⟩]⟩]⟩

/-- pageW is a page whose primary editor holds a fixed text. -/
def pageW : Page :=
  ⟨fun s => if s = ".tiptap.ProseMirror.skool-editor2"
    then some "Hello world content" else none, false⟩

/-- envW makes every navigation succeed on `pageW`. -/
def envW : Nat → NavResult := fun _ => NavResult.ok pageW

/-- Witness for C1: resuming `csW` from cursor 1 attempts exactly the
flattened indices 1 and 2. -/
theorem c1_resume_window_witness :
    (scrapeDirectWithIds (some csW) (some "http://u") envW
        (fun _ => false) 5 false ⟨Step.scraping, 1, 0, none⟩ [] none
        true).1.attempted = List.range' 1 2 :=
  (c1_resume_window csW "http://u" (by decide) envW (fun _ => false)
    (fun _ => rfl) 5 false ⟨Step.scraping, 1, 0, none⟩ [] none true
    (by decide)).1

/-- On valid input with a fresh store and healthy login and navigation,
Actor.main reaches the harvest with step `scraping`, cursor 0, and the
base URL taken from the input. -/
theorem actorMain_fresh (e pw b : String) (he : e ≠ "") (hpw : pw ≠ "")
    (hb : b ≠ "") (now : Int) (discovered : Option CourseStructure)
    (env : Nat → NavResult) (migrateAt : Nat → Bool) :
    actorMain ⟨some e, some pw, some b⟩ false none now false false false
        false discovered env migrateAt =
      runMainScrape discovered (some b) env migrateAt now false
        ⟨Step.scraping, 0, 0, none⟩ []
        (some (mkSaved ⟨Step.scraping, 0, 0, none⟩ [] now)) := by
  rw [actorMain]
  simp [he, hpw, hb, init, loadState, actorGetValue, initialState,
    saveState, actorSetValue]

/-- C2: with the interruption signal first observed before node `i`, the
run persists a checkpoint whose cursor is exactly `i` (not `i + 1`), the
browser is closed already at the loop exit (before control returns to the
entry point), nothing is pushed, and the process exits successfully. -/
theorem c2_graceful_migration (cs : CourseStructure) (e pw b : String)
    (he : e ≠ "") (hpw : pw ≠ "") (hb : b ≠ "") (env : Nat → NavResult)
    (migrateAt : Nat → Bool) (now : Int) (i : Nat)
    (hi : i < (collectModules cs).length)
    (hfirst : ∀ j, j < i → migrateAt j = false)
    (hk : migrateAt i = true) :
    (actorMain ⟨some e, some pw, some b⟩ false none now false false false
        false (some cs) env migrateAt).exit = ExitStatus.success ∧
    Option.map SavedState.processedModules
      (actorMain ⟨some e, some pw, some b⟩ false none now false false
        false false (some cs) env migrateAt).store = some i ∧
    (actorMain ⟨some e, some pw, some b⟩ false none now false false false
        false (some cs) env migrateAt).browserOpen = false ∧
    (actorMain ⟨some e, some pw, some b⟩ false none now false false false
        false (some cs) env migrateAt).pushed = [] ∧
    (∀ (rem : List FlatModule) (i0 : Nat) (ls : LoopState), i0 ≤ i →
      i < i0 + rem.length →
      (∀ j, i0 ≤ j → j < i → migrateAt j = false) →
      (runNodes (some b) env migrateAt now false i0 rem
          ls).1.browserOpen = false ∧
      (runNodes (some b) env migrateAt now false i0 rem ls).2 =
        RunExit.migrated ∧
      Option.map SavedState.processedModules
        (runNodes (some b) env migrateAt now false i0 rem ls).1.store =
        some i) := by
  obtain ⟨hex, hpm, hbo, hmc, hst⟩ := runNodes_firstMigrate (some b) env
    migrateAt now i hk ((collectModules cs).drop 0) 0
    (mkLoopState cs ⟨Step.scraping, 0, (collectModules cs).length, none⟩
      (some (mkSaved ⟨Step.scraping, 0, 0, none⟩ [] now)) true [])
    (Nat.zero_le i) (by simpa using hi) (fun j _ hj => hfirst j hj)
  rw [actorMain_fresh e pw b he hpw hb now (some cs) env migrateAt]
  rw [runMainScrape]
  rw [scrapeDirectWithIds_eq]
  refine ⟨?_, ?_, ?_, ?_, ?_⟩
  · simp only []
    rw [hex]
    simp
  · simp only []
    rw [hex]
    simpa using hst
  · simp only []
    rw [hex]
    simp
  · simp only []
    rw [hex]
    simp
  · intro rem i0 ls h1 h2 h3
    obtain ⟨e1, _, e3, _, e5⟩ := runNodes_firstMigrate (some b) env
      migrateAt now i hk rem i0 ls h1 h2 h3
    exact ⟨e3, e1, e5⟩

/-- Witness for C2: migration first observed before node 1 of `csW`
pauses with exit 0 and a persisted cursor of exactly 1. -/
theorem c2_graceful_migration_witness :
    (actorMain ⟨some "e", some "p", some "http://u"⟩ false none 5 false
        false false false (some csW) envW
        (fun j => decide (1 ≤ j))).exit = ExitStatus.success ∧
    Option.map SavedState.processedModules
      (actorMain ⟨some "e", some "p", some "http://u"⟩ false none 5 false
        false false false (some csW) envW
        (fun j => decide (1 ≤ j))).store = some 1 := by
  have h := c2_graceful_migration csW "e" "p" "http://u" (by decide)
    (by decide) (by decide) envW (fun j => decide (1 ≤ j)) 5 1 (by decide)
    (fun j hj => by
      have hj0 : j = 0 := by omega
      subst hj0
      rfl)
    rfl
  exact ⟨h.1, h.2.1⟩

/-- C9: while harvesting with a healthy store, the periodic checkpoint
saves happen exactly at the loop steps whose advanced node counter is a
positive multiple of 3 (every saved counter value is a positive multiple
of 3, and every successful step reaching such a counter saves), and on an
interruption first observed at node `i` a checkpoint is saved
unconditionally with cursor `i`. -/
theorem c9_checkpoint_cadence (cs : CourseStructure) (b : String)
    (hb : b ≠ "") (env : Nat → NavResult) (now : Int)
    (st : CurrentStateModel) (data : List String)
    (store : Option SavedState) (bo : Bool) :
    (∀ (migrateAt : Nat → Bool), (∀ j, migrateAt j = false) →
      (scrapeDirectWithIds (some cs) (some b) env migrateAt now false st
          data store bo).1.periodicSaves =
        (List.range' st.processedModules
          ((collectModules cs).length - st.processedModules)).filterMap
          (fun j => if envIsOk env j = true ∧ (j + 1) % 3 = 0
            then some (j + 1) else none) ∧
      (∀ v ∈ (scrapeDirectWithIds (some cs) (some b) env migrateAt now
          false st data store bo).1.periodicSaves,
        0 < v ∧ v % 3 = 0)) ∧
    (∀ (migrateAt : Nat → Bool) (i : Nat), st.processedModules ≤ i →
      i < (collectModules cs).length →
      (∀ j, st.processedModules ≤ j → j < i → migrateAt j = false) →
      migrateAt i = true →
      (scrapeDirectWithIds (some cs) (some b) env migrateAt now false st
          data store bo).1.migrationSavedCursor = some i ∧
      Option.map SavedState.processedModules
        (scrapeDirectWithIds (some cs) (some b) env migrateAt now false
          st data store bo).1.store = some i) := by
  have hurls : ∀ m ∈ (collectModules cs).drop st.processedModules,
      (generateModuleUrl (some b) (some m.Id)).isSome = true :=
    fun m hmem =>
      collectModules_url_ok cs b hb m (List.mem_of_mem_drop hmem)
  constructor
  · intro migrateAt hm
    have h := runNodes_cursor_saves (some b) env migrateAt now false hm
      ((collectModules cs).drop st.processedModules) st.processedModules
      (mkLoopState cs ⟨st.step, st.processedModules,
        (collectModules cs).length, st.currentModule⟩ store bo data)
      hurls
    have hchar : (scrapeDirectWithIds (some cs) (some b) env migrateAt
        now false st data store bo).1.periodicSaves =
        (List.range' st.processedModules
          ((collectModules cs).length - st.processedModules)).filterMap
          (fun j => if envIsOk env j = true ∧ (j + 1) % 3 = 0
            then some (j + 1) else none) := by
      rw [scrapeDirectWithIds_eq]
      simpa [mkLoopState, List.length_drop] using h.2
    refine ⟨hchar, ?_⟩
    intro v hv
    rw [hchar] at hv
    rcases List.mem_filterMap.mp hv with ⟨j, _, hf⟩
    by_cases hc : envIsOk env j = true ∧ (j + 1) % 3 = 0
    · rw [if_pos hc] at hf
      injection hf with hf
      subst hf
      exact ⟨Nat.succ_pos j, hc.2⟩
    · rw [if_neg hc] at hf
      exact absurd hf (by simp)
  · intro migrateAt i h1 h2 hfire hk
    obtain ⟨hex, hpm, hbo, hmc, hst⟩ := runNodes_firstMigrate (some b)
      env migrateAt now i hk
      ((collectModules cs).drop st.processedModules) st.processedModules
      (mkLoopState cs ⟨st.step, st.processedModules,
        (collectModules cs).length, st.currentModule⟩ store bo data)
      h1 (by simp [List.length_drop]; omega)
      (fun j hj1 hj2 => hfire j hj1 hj2)
    constructor
    · rw [scrapeDirectWithIds_eq]
      simpa [mkLoopState] using hmc
    · rw [scrapeDirectWithIds_eq]
      simpa [mkLoopState] using hst

/-- Witness for C9: over `csW` (three id-bearing modules, all succeeding)
a fresh pass saves exactly once, at counter 3; and a migration first
observed at node 1 saves cursor 1. -/
theorem c9_checkpoint_cadence_witness :
    (scrapeDirectWithIds (some csW) (some "http://u") envW
        (fun _ => false) 5 false initialState [] none
        true).1.periodicSaves = [3] ∧
    Option.map SavedState.processedModules
      (scrapeDirectWithIds (some csW) (some "http://u") envW
        (fun j => decide (1 ≤ j)) 5 false initialState [] none
        true).1.store = some 1 := by
  have h := c9_checkpoint_cadence csW "http://u" (by decide) envW 5
    initialState [] none true
  constructor
  · have h1 := (h.1 (fun _ => false) (fun _ => rfl)).1
    rw [h1]
    decide
  · exact (h.2 (fun j => decide (1 ≤ j)) 1 (by decide) (by decide)
      (fun j hj1 hj2 => by
        have hj0 : j = 0 := by omega
        subst hj0
        rfl)
      rfl).2

/-- csOne has a single section with a single id-bearing module. -/
def csOne : CourseStructure := ⟨[⟨"S", [⟨"M", none, some "a", none⟩]⟩]⟩

/-- envErr makes every navigation throw a timeout. -/
def envErr : Nat → NavResult := fun _ => NavResult.err "Navigation timeout"

/-- C4 counterexample: node 0 fails recoverably; the error string is
recorded and the run finishes without propagating, but the cursor is NOT
advanced — `processedModules` is still 0 after the node was processed,
where the claim requires it to advance to 1 regardless of failure. -/
theorem c4_counterexample :
    (scrapeDirectWithIds (some csOne) (some "http://u") envErr
        (fun _ => false) 5 false initialState [] none
        true).1.contentWrites =
      [(0, "Error scraping content: Navigation timeout")] ∧
    (scrapeDirectWithIds (some csOne) (some "http://u") envErr
        (fun _ => false) 5 false initialState [] none true).2 = none ∧
    (scrapeDirectWithIds (some csOne) (some "http://u") envErr
        (fun _ => false) 5 false initialState [] none
        true).1.state.processedModules = 0 := by
  refine ⟨by decide, by decide, by decide⟩

/-- C4 amended: every per-node recoverable failure at node `i` records
that node's content as the error-reason string and the loop continues with
node `i + 1` — one content write per window index, and the failure never
propagates out of the loop — but the checkpoint cursor advances only on
successful nodes: the final cursor is the fold that moves to `j + 1`
exactly at successful `j`, leaving failed nodes without a cursor
advance. -/
theorem c4_per_node_failure_amended (cs : CourseStructure) (b : String)
    (hb : b ≠ "") (env : Nat → NavResult) (migrateAt : Nat → Bool)
    (hm : ∀ j, migrateAt j = false) (now : Int) (setFails : Bool)
    (st : CurrentStateModel) (data : List String)
    (store : Option SavedState) (bo : Bool) :
    (scrapeDirectWithIds (some cs) (some b) env migrateAt now setFails st
        data store bo).2 = none ∧
    (scrapeDirectWithIds (some cs) (some b) env migrateAt now setFails st
        data store bo).1.contentWrites =
      (List.range' st.processedModules
        ((collectModules cs).length - st.processedModules)).map
        (fun j => (j, nodeContent env j)) ∧
    (scrapeDirectWithIds (some cs) (some b) env migrateAt now setFails st
        data store bo).1.state.processedModules =
      List.foldl (fun acc j => if envIsOk env j then j + 1 else acc)
        st.processedModules
        (List.range' st.processedModules
          ((collectModules cs).length - st.processedModules)) := by
  have hurls : ∀ m ∈ (collectModules cs).drop st.processedModules,
      (generateModuleUrl (some b) (some m.Id)).isSome = true :=
    fun m hmem =>
      collectModules_url_ok cs b hb m (List.mem_of_mem_drop hmem)
  have hw := runNodes_writes (some b) env migrateAt now setFails hm
    ((collectModules cs).drop st.processedModules) st.processedModules
    (mkLoopState cs ⟨st.step, st.processedModules,
      (collectModules cs).length, st.currentModule⟩ store bo data) hurls
  have hc := runNodes_cursor_saves (some b) env migrateAt now setFails hm
    ((collectModules cs).drop st.processedModules) st.processedModules
    (mkLoopState cs ⟨st.step, st.processedModules,
      (collectModules cs).length, st.currentModule⟩ store bo data) hurls
  have hp := runNodes_preserved (some b) env migrateAt now setFails hm
    ((collectModules cs).drop st.processedModules) st.processedModules
    (mkLoopState cs ⟨st.step, st.processedModules,
      (collectModules cs).length, st.currentModule⟩ store bo data)
  refine ⟨?_, ?_, ?_⟩
  · rw [scrapeDirectWithIds_eq]
    rw [hp.1]
  · rw [scrapeDirectWithIds_eq]
    simpa [mkLoopState, List.length_drop] using hw.2
  · rw [scrapeDirectWithIds_eq]
    simpa [mkLoopState, List.length_drop] using hc.1

/-- Witness for the amended C4: over `csW` with node 1 failing, the error
is recorded for node 1, nodes 0 and 2 succeed, and the final cursor is 3
(driven by the last success), while a run whose last node fails ends at
cursor 0. -/
theorem c4_per_node_failure_amended_witness :
    (scrapeDirectWithIds (some csW) (some "http://u")
        (fun i => if i = 1 then NavResult.err "t" else NavResult.ok pageW)
        (fun _ => false) 5 false initialState [] none
        true).1.contentWrites =
      [(0, "Hello world content"), (1, "Error scraping content: t"),
       (2, "Hello world content")] ∧
    (scrapeDirectWithIds (some csW) (some "http://u")
        (fun i => if i = 1 then NavResult.err "t" else NavResult.ok pageW)
        (fun _ => false) 5 false initialState [] none
        true).1.state.processedModules = 3 := by
  have h := c4_per_node_failure_amended csW "http://u" (by decide)
    (fun i => if i = 1 then NavResult.err "t" else NavResult.ok pageW)
    (fun _ => false) (fun _ => rfl) 5 false initialState [] none true
  constructor
  · rw [h.2.1]
    decide
  · rw [h.2.2]
    decide

/-- The loop never changes `totalModules`, interrupted or not. -/
theorem runNodes_total (base : Option String) (env : Nat → NavResult)
    (migrateAt : Nat → Bool) (now : Int) (setFails : Bool) :
    ∀ (rem : List FlatModule) (i : Nat) (ls : LoopState),
      (runNodes base env migrateAt now setFails i rem
        ls).1.state.totalModules = ls.state.totalModules := by
  intro rem
  induction rem with
  | nil => intro i ls; simp [runNodes_nil]
  | cons m rest ih =>
    intro i ls
    by_cases hmig : migrateAt i = true
    · rw [runNodes_cons_migrate _ _ _ _ _ _ _ _ _ hmig]
      simp [migrateState]
    · rw [Bool.not_eq_true] at hmig
      rcases hurl : generateModuleUrl base (some m.Id) with _ | u
      · rw [runNodes_cons_noUrl _ _ _ _ _ _ _ _ _ hmig hurl, ih]
      · cases henv : env i with
        | err msg =>
          rw [runNodes_cons_err _ _ _ _ _ _ _ _ _ hmig u hurl msg henv,
            ih]
          simp [errState]
        | ok page =>
          by_cases h3 : (i + 1) % 3 = 0
          · rw [runNodes_cons_ok_save _ _ _ _ _ _ _ _ _ hmig u hurl page
              henv h3, ih]
            simp [okSaveState, okState]
          · rw [runNodes_cons_ok_nosave _ _ _ _ _ _ _ _ _ hmig u hurl
              page henv h3, ih]
            simp [okState]

/-- When every index of the window succeeds, the cursor fold lands on the
end of the window. -/
theorem foldl_cursor_all_ok (env : Nat → NavResult) :
    ∀ (len c acc : Nat),
      (∀ j, c ≤ j → j < c + len → envIsOk env j = true) →
      List.foldl (fun acc j => if envIsOk env j then j + 1 else acc) acc
        (List.range' c len) = if len = 0 then acc else c + len := by
  intro len
  induction len with
  | zero => intro c acc _; simp
  | succ n ihn =>
    intro c acc h
    rw [List.range'_succ]
    simp only [List.foldl_cons]
    have hc : envIsOk env c = true := h c (le_refl c) (by omega)
    rw [ihn (c + 1) _ (fun j hj1 hj2 => h j (by omega) (by omega))]
    by_cases hn : n = 0
    · simp [hn, hc]
    · simp [hn, hc]
      omega

/-- C5 counterexample: a fresh run over a single-module tree whose only
node fails recoverably is marked `completed` with cursor 0 and total 1 —
the `Completed`-implies-`cursor == totalNodes` invariant is violated by
the entry point. -/
theorem c5_counterexample :
    (actorMain ⟨some "e", some "p", some "http://u"⟩ false none 5 false
        false false false (some csOne) envErr
        (fun _ => false)).finalState.step = Step.completed ∧
    (actorMain ⟨some "e", some "p", some "http://u"⟩ false none 5 false
        false false false (some csOne) envErr
        (fun _ => false)).finalState.processedModules = 0 ∧
    (actorMain ⟨some "e", some "p", some "http://u"⟩ false none 5 false
        false false false (some csOne) envErr
        (fun _ => false)).finalState.totalModules = 1 := by
  refine ⟨by decide, by decide, by decide⟩

/-- C5 amended: the harvest preserves `0 <= cursor <= totalNodes`
(whenever the resumed cursor is within the flattened count, the final
cursor stays at most the final total, interrupted or not); and the
completed phase carries `cursor == totalNodes` when every node of the
window succeeds — but a trailing recoverable failure can leave
`Completed` with `cursor < totalNodes`. -/
theorem c5_invariant_amended (cs : CourseStructure) (env : Nat → NavResult)
    (migrateAt : Nat → Bool) (now : Int) :
    (∀ (base : Option String) (setFails : Bool)
        (st : CurrentStateModel) (data : List String)
        (store : Option SavedState) (bo : Bool),
      st.processedModules ≤ (collectModules cs).length →
      (scrapeDirectWithIds (some cs) base env migrateAt now setFails st
          data store bo).1.state.processedModules ≤
        (scrapeDirectWithIds (some cs) base env migrateAt now setFails st
          data store bo).1.state.totalModules) ∧
    (∀ (e pw b : String), e ≠ "" → pw ≠ "" → b ≠ "" →
      (∀ j, migrateAt j = false) →
      (∀ j, j < (collectModules cs).length → envIsOk env j = true) →
      (actorMain ⟨some e, some pw, some b⟩ false none now false false
          false false (some cs) env migrateAt).finalState.step =
        Step.completed ∧
      (actorMain ⟨some e, some pw, some b⟩ false none now false false
          false false (some cs) env
          migrateAt).finalState.processedModules =
        (collectModules cs).length ∧
      (actorMain ⟨some e, some pw, some b⟩ false none now false false
          false false (some cs) env migrateAt).finalState.totalModules =
        (collectModules cs).length) := by
  constructor
  · intro base setFails st data store bo hcur
    have hle := runNodes_cursor_le base env migrateAt now setFails
      ((collectModules cs).drop st.processedModules) st.processedModules
      (mkLoopState cs ⟨st.step, st.processedModules,
        (collectModules cs).length, st.currentModule⟩ store bo data)
      (by simp [mkLoopState, List.length_drop])
    have htot := runNodes_total base env migrateAt now setFails
      ((collectModules cs).drop st.processedModules) st.processedModules
      (mkLoopState cs ⟨st.step, st.processedModules,
        (collectModules cs).length, st.currentModule⟩ store bo data)
    rw [scrapeDirectWithIds_eq]
    simp only [mkLoopState] at htot ⊢
    rw [htot]
    simp only [List.length_drop] at hle
    have : st.processedModules +
        ((collectModules cs).length - st.processedModules) =
        (collectModules cs).length := by omega
    simpa [this] using hle
  · intro e pw b he hpw hb hm hok
    have hurls : ∀ m ∈ (collectModules cs).drop 0,
        (generateModuleUrl (some b) (some m.Id)).isSome = true :=
      fun m hmem =>
        collectModules_url_ok cs b hb m (List.mem_of_mem_drop hmem)
    have hp := runNodes_preserved (some b) env migrateAt now false hm
      ((collectModules cs).drop 0) 0
      (mkLoopState cs ⟨Step.scraping, 0, (collectModules cs).length,
        none⟩ (some (mkSaved ⟨Step.scraping, 0, 0, none⟩ [] now)) true [])
    have hc := runNodes_cursor_saves (some b) env migrateAt now false hm
      ((collectModules cs).drop 0) 0
      (mkLoopState cs ⟨Step.scraping, 0, (collectModules cs).length,
        none⟩ (some (mkSaved ⟨Step.scraping, 0, 0, none⟩ [] now)) true [])
      hurls
    have htot := runNodes_total (some b) env migrateAt now false
      ((collectModules cs).drop 0) 0
      (mkLoopState cs ⟨Step.scraping, 0, (collectModules cs).length,
        none⟩ (some (mkSaved ⟨Step.scraping, 0, 0, none⟩ [] now)) true [])
    have hfold := foldl_cursor_all_ok env ((collectModules cs).length) 0 0
      (fun j hj1 hj2 => hok j (by omega))
    rw [actorMain_fresh e pw b he hpw hb now (some cs) env migrateAt]
    rw [runMainScrape]
    rw [scrapeDirectWithIds_eq]
    dsimp only
    rw [hp.1]
    dsimp only
    refine ⟨rfl, ?_, ?_⟩
    · rw [hc.1]
      simp only [mkLoopState, List.drop_zero]
      rw [hfold]
      by_cases h0 : (collectModules cs).length = 0 <;> simp [h0]
    · rw [htot]
      rfl

/-- Witness for the amended C5: resuming `csW` from cursor 1 keeps the
cursor within the total, and a fully successful fresh run completes with
cursor equal to the flattened count. -/
theorem c5_invariant_amended_witness :
    (scrapeDirectWithIds (some csW) (some "http://u") envW
        (fun _ => false) 5 false ⟨Step.scraping, 1, 0, none⟩ [] none
        true).1.state.processedModules ≤
      (scrapeDirectWithIds (some csW) (some "http://u") envW
        (fun _ => false) 5 false ⟨Step.scraping, 1, 0, none⟩ [] none
        true).1.state.totalModules ∧
    (actorMain ⟨some "e", some "p", some "http://u"⟩ false none 5 false
        false false false (some csW) envW
        (fun _ => false)).finalState.processedModules =
      (collectModules csW).length := by
  have h := c5_invariant_amended csW envW (fun _ => false) 5
  exact ⟨h.1 (some "http://u") false ⟨Step.scraping, 1, 0, none⟩ [] none
      true (by decide),
    (h.2 "e" "p" "http://u" (by decide) (by decide) (by decide)
      (fun _ => rfl) (fun j _ => rfl)).2.1⟩

/-- completedStoreW is a fresh checkpoint of an already completed run. -/
def completedStoreW : Option SavedState :=
  some ⟨Step.completed, 3, 3, none, [], 4⟩

/-- C6 counterexample: re-running against a fresh `Completed` checkpoint
pushes no records at all, while the very same input run fresh to
completion pushes a non-empty output set — the re-run does not re-emit
the completed output. -/
theorem c6_counterexample :
    (actorMain ⟨some "e", some "p", some "http://u"⟩ false
        completedStoreW 5 false false false false (some csW) envW
        (fun _ => false)).pushed = [] ∧
    (actorMain ⟨some "e", some "p", some "http://u"⟩ false none 5 false
        false false false (some csW) envW
        (fun _ => false)).pushed ≠ [] := by
  refine ⟨by decide, by decide⟩

/-- C6 amended: re-running the entry point against a fresh `Completed`
checkpoint is a pure no-op — it exits successfully, attempts and
navigates no node, writes no content, leaves the store untouched — and
emits no output records at all (it returns before any push, rather than
re-emitting the completed output set). -/
theorem c6_completed_rerun_amended (s : SavedState) (e pw b : String)
    (he : e ≠ "") (hpw : pw ≠ "") (hb : b ≠ "") (now : Int)
    (setFails loginFails migrateDuringLogin navFails : Bool)
    (discovered : Option CourseStructure) (env : Nat → NavResult)
    (migrateAt : Nat → Bool) (hs : s.step = Step.completed)
    (hts : s.timestamp ≠ 0) (hfresh : s.timestamp > now - 3600000) :
    actorMain ⟨some e, some pw, some b⟩ false (some s) now setFails
        loginFails migrateDuringLogin navFails discovered env migrateAt =
      ⟨ExitStatus.success, some s, [],
       ⟨s.step, s.processedModules, s.totalModules, s.currentModule⟩,
       [], [], [], false⟩ := by
  rw [actorMain]
  simp [he, hpw, hb, init, loadState, actorGetValue, hts, hfresh, hs]

/-- Witness for the amended C6 at the concrete completed checkpoint. -/
theorem c6_completed_rerun_amended_witness :
    actorMain ⟨some "e", some "p", some "http://u"⟩ false completedStoreW
        5 false false false false (some csW) envW (fun _ => false) =
      ⟨ExitStatus.success, completedStoreW,
       [], ⟨Step.completed, 3, 3, none⟩, [], [], [], false⟩ :=
  c6_completed_rerun_amended ⟨Step.completed, 3, 3, none, [], 4⟩ "e" "p"
    "http://u" (by decide) (by decide) (by decide) 5 false false false
    false (some csW) envW (fun _ => false) rfl (by decide) (by decide)

/-- C8 counterexample: on `csW`, whose last module has no id, a fully
successful fresh run navigates only the three id-bearing modules (the
id-less one is skipped before any navigation), yet the output entry of
the id-less module carries the sentinel "No content scraped" — no
`Error("no locator")` string is ever recorded for it. -/
theorem c8_counterexample :
    (actorMain ⟨some "e", some "p", some "http://u"⟩ false none 5 false
        false false false (some csW) envW (fun _ => false)).navigated =
      [0, 1, 2] ∧
    (actorMain ⟨some "e", some "p", some "http://u"⟩ false none 5 false
        false false false (some csW) envW
        (fun _ => false)).pushed.getLast? =
      some (Pushed.item ⟨"S2", "M4", none, "", "No content scraped", 5⟩) ∧
    (actorMain ⟨some "e", some "p", some "http://u"⟩ false none 5 false
        false false false (some csW) envW
        (fun _ => false)).pushed.length = 5 := by
  refine ⟨by decide, by decide, by decide⟩

/-- C8 amended: the locator returns `None` whenever the base address or
the module id is missing or empty; every module in the scraping list has
a truthy id (an id-less module is excluded before the loop, so it is
never navigated and no content and in particular no
`Error("no locator")` record is written for it); the flattened output
still has one entry per discovered module, id or not; a module left
without content carries the human-readable "No content scraped" sentinel
instead of being omitted; and an uninterrupted run navigates exactly the
indices of the id-bearing list. -/
theorem c8_missing_id_amended (cs : CourseStructure) (now : Int) :
    (∀ (base id : Option String),
      base = none ∨ id = none ∨ base = some "" ∨ id = some "" →
      generateModuleUrl base id = none) ∧
    (∀ m ∈ collectModules cs, m.Id ≠ "") ∧
    (flattenOutput cs now).length =
      (cs.sections.map (fun s => s.childrenCourses.length)).sum ∧
    (∀ (s : CSection) (m : CModule), m.content = none →
      (outEntryOf s m now).content = "No content scraped") ∧
    (∀ (b : String), b ≠ "" → ∀ (env : Nat → NavResult)
        (migrateAt : Nat → Bool), (∀ j, migrateAt j = false) →
      ∀ (setFails : Bool) (data : List String)
        (store : Option SavedState) (bo : Bool),
      (scrapeDirectWithIds (some cs) (some b) env migrateAt now setFails
          initialState data store bo).1.navigated =
        List.range' 0 (collectModules cs).length) := by
  refine ⟨?_, ?_, ?_, ?_, ?_⟩
  · intro base id h
    rcases h with h | h | h | h <;> subst h <;>
      first
      | rfl
      | (cases base with
         | none => rfl
         | some v => by_cases hv : v = "" <;> simp [generateModuleUrl, hv])
      | (cases id with
         | none => rfl
         | some v => by_cases hv : v = "" <;> simp [generateModuleUrl, hv])
  · exact fun m h => collectFrom_Id_ne _ _ _ h
  · have hgen : ∀ (ss : List CSection),
        ((ss.map (fun s => s.childrenCourses.map
          (fun m => outEntryOf s m now))).flatten).length =
        (ss.map (fun s => s.childrenCourses.length)).sum := by
      intro ss
      induction ss with
      | nil => rfl
      | cons s rest ih => simp [ih]
    rw [flattenOutput]
    exact hgen cs.sections
  · intro s m hc
    simp [outEntryOf, hc]
  · intro b hb env migrateAt hm setFails data store bo
    have hurls : ∀ m ∈ (collectModules cs).drop 0,
        (generateModuleUrl (some b) (some m.Id)).isSome = true :=
      fun m hmem =>
        collectModules_url_ok cs b hb m (List.mem_of_mem_drop hmem)
    have hw := runNodes_writes (some b) env migrateAt now setFails hm
      ((collectModules cs).drop 0) 0
      (mkLoopState cs ⟨initialState.step, 0, (collectModules cs).length,
        initialState.currentModule⟩ store bo data) hurls
    rw [scrapeDirectWithIds_eq]
    dsimp only
    simpa [mkLoopState, List.drop_zero] using hw.1

/-- Witness for the amended C8 on concrete data: a missing base yields no
locator; `csW` has 4 discovered modules in the output; a content-less
module surfaces as "No content scraped"; the run navigates exactly the
three id-bearing indices. -/
theorem c8_missing_id_amended_witness :
    generateModuleUrl none (some "a") = none ∧
    (flattenOutput csW 5).length = 4 ∧
    (outEntryOf ⟨"S2", []⟩ ⟨"M4", none, none, none⟩ 5).content =
      "No content scraped" ∧
    (scrapeDirectWithIds (some csW) (some "http://u") envW
        (fun _ => false) 5 false initialState [] none true).1.navigated =
      List.range' 0 3 := by
  have h := c8_missing_id_amended csW 5
  refine ⟨h.1 none (some "a") (Or.inl rfl), ?_,
    h.2.2.2.1 ⟨"S2", []⟩ ⟨"M4", none, none, none⟩ rfl, ?_⟩
  · rw [h.2.2.1]
    decide
  · exact (h.2.2.2.2 "http://u" (by decide) envW (fun _ => false)
      (fun _ => rfl) false [] none true).trans (by decide)
